import Mathlib

/-!
Verification development for the monoerp payroll engine.

The definitions below are a shallow embedding of
`backend/app/services/salary_calculator.py` (class `SalaryCalculator`) and the
parts of `backend/app/services/salary_service.py` (class `SalaryService`) and
`backend/app/models/*.py` that the payroll claims refer to.

Modelling conventions:
* SQLAlchemy `Float` money columns are embedded as `ℚ` (exact arithmetic);
  nullable columns as `Option`.
* A `Date` column is embedded as its proleptic-Gregorian rata-die number
  (`Nat`, day 1 = 0001-01-01), matching Python's `datetime.date` ordering;
  Python's `date.weekday()` (Monday = 0, Sunday = 6) is reimplemented on
  rata-die numbers.
* The SQLAlchemy session is embedded as an explicit record `DB` of the table
  contents; `db.commit()` points correspond to returning the updated `DB`.
* `month_year` strings of the form "YYYY-MM" are embedded as the pair of the
  already-parsed `year` and `month` numbers (the source parses them with
  `map(int, month_year.split('-'))`).
-/

namespace Monoerp

/-- Status column of `attendance` (`AttendanceStatus` in `models/attendance.py`). -/
inductive AttendanceStatus
  | present
  | absent
  | half_day
  | holiday
deriving DecidableEq, Repr

/-- Kind column of `targets` (`TargetType` in `models/targets.py`). -/
inductive TargetType
  | weekly
  | monthly
  | quarterly
  | yearly
deriving DecidableEq, Repr

/-- Deduction plan of an advance (`DeductionPlan` in `models/advances.py`).
`partial_plan` embeds the source value `PARTIAL = "partial"` (renamed only
because of a Lean keyword). -/
inductive DeductionPlan
  | full
  | partial_plan
deriving DecidableEq, Repr

/-- Status column of `advances` (`AdvanceStatus` in `models/advances.py`). -/
inductive AdvanceStatus
  | active
  | cleared
deriving DecidableEq, Repr

/-- Payment status of a salary record (`PaymentStatus` in `models/salary.py`). -/
inductive PaymentStatus
  | pending
  | approved
  | paid
deriving DecidableEq, Repr

/-- Row of the `staff` table (`models/staff.py`); only the columns the payroll
engine reads are embedded. -/
structure Staff where
  id : Nat
  basic_salary : ℚ
  incentive_percentage : ℚ
  is_active : Bool
deriving DecidableEq, Repr

/-- Row of the `attendance` table (`models/attendance.py`); `date` is the
rata-die day number. -/
structure Attendance where
  staff_id : Nat
  date : Nat
  status : AttendanceStatus
deriving DecidableEq, Repr

/-- Row of the `sales` table (`models/sales.py`). -/
structure Sale where
  staff_id : Nat
  sale_amount : ℚ
  sale_date : Nat
deriving DecidableEq, Repr

/-- Row of the `targets` table (`models/targets.py`). -/
structure Target where
  id : Nat
  staff_id : Nat
  target_type : TargetType
  total_target_amount : ℚ
  period_start : Nat
  period_end : Nat
  incentive_percentage : ℚ
deriving DecidableEq, Repr

/-- Row of the `achievements` table (`models/achievements.py`); the source's
`period` string "YYYY-MM" is embedded as the `(year, month)` pair it encodes. -/
structure Achievement where
  staff_id : Nat
  target_id : Nat
  achieved_amount : ℚ
  achievement_percentage : ℚ
  incentive_earned : ℚ
  period_year : Nat
  period_month : Nat
deriving DecidableEq, Repr

/-- Row of the `advances` table (`models/advances.py`). -/
structure Advance where
  id : Nat
  staff_id : Nat
  advance_amount : ℚ
  total_deducted : ℚ
  remaining_amount : ℚ
  deduction_plan : DeductionPlan
  monthly_deduction_amount : Option ℚ
  status : AdvanceStatus
deriving DecidableEq, Repr

/-- Row of the `salary` table (`models/salary.py`); note the table has no
`sunday_bonus` column. -/
structure SalaryRow where
  staff_id : Nat
  year : Nat
  month : Nat
  basic_salary : ℚ
  working_days : Nat
  present_days : Nat
  sunday_count : Nat
  salary_for_days : ℚ
  target_incentive : ℚ
  basic_incentive : ℚ
  gross_salary : ℚ
  advance_deduction : ℚ
  net_salary : ℚ
  payment_status : PaymentStatus
deriving DecidableEq, Repr

/-- The persistent store the payroll engine reads and writes, one field per
table it touches. -/
structure DB where
  staff : List Staff
  attendance : List Attendance
  sales : List Sale
  targets : List Target
  achievements : List Achievement
  advances : List Advance
  salaries : List SalaryRow
deriving DecidableEq, Repr

/-! ### Calendar utility

Embedding of `calendar.monthrange(year, month)[1]` and
`datetime.date(y, m, d).weekday()` as used by `_get_working_days`,
`_get_sunday_count` and the month-boundary computations. -/

/-- Gregorian leap-year rule, as used by `calendar.monthrange`. -/
def isLeap (y : Nat) : Bool :=
  (y % 4 == 0 && y % 100 != 0) || y % 400 == 0

/-- Number of days in a month: `calendar.monthrange(year, month)[1]`. -/
def daysInMonth (y m : Nat) : Nat :=
  if m = 2 then (if isLeap y then 29 else 28)
  else if m = 4 ∨ m = 6 ∨ m = 9 ∨ m = 11 then 30
  else 31

/-- Days in year `y` strictly before month `m`. -/
def daysBeforeMonth (y m : Nat) : Nat :=
  ((List.range (m - 1)).map (fun i => daysInMonth y (i + 1))).sum

/-- Rata-die number of the date `(y, m, d)`: day count from a fixed epoch with
0001-01-01 ↦ 1, proleptic Gregorian (the day arithmetic of `datetime.date`). -/
def rataDie (y m d : Nat) : Nat :=
  365 * (y - 1) + (y - 1) / 4 + (y - 1) / 400 + daysBeforeMonth y m + d
    - (y - 1) / 100

/-- Python's `date.weekday()` on rata-die numbers: Monday = 0, …, Sunday = 6
(0001-01-01 was a Monday). -/
def weekday (rd : Nat) : Nat :=
  (rd - 1) % 7

/-- First day of the month, `date(year, month, 1)`. -/
def monthStart (y m : Nat) : Nat :=
  rataDie y m 1

/-- Last day of the month as the source computes it:
`date(y+1, 1, 1) - 1 day` for December, `date(y, m+1, 1) - 1 day` otherwise. -/
def monthEnd (y m : Nat) : Nat :=
  if m = 12 then rataDie (y + 1) 1 1 - 1 else rataDie y (m + 1) 1 - 1

/-- `SalaryCalculator._get_working_days`: count of non-Sunday days in the
month. -/
def getWorkingDays (y m : Nat) : Nat :=
  ((List.range (daysInMonth y m)).filter
    (fun i => weekday (rataDie y m (i + 1)) ≠ 6)).length

/-- `SalaryCalculator._get_sunday_count`: count of Sundays in the month. -/
def getSundayCount (y m : Nat) : Nat :=
  ((List.range (daysInMonth y m)).filter
    (fun i => weekday (rataDie y m (i + 1)) = 6)).length

/-- `SalaryCalculator._get_present_days`: number of attendance rows of the
staff member inside the month with status `present`. -/
def getPresentDays (db : DB) (sid y m : Nat) : Nat :=
  (db.attendance.filter (fun a =>
    a.staff_id = sid ∧ monthStart y m ≤ a.date ∧ a.date ≤ monthEnd y m ∧
    a.status = AttendanceStatus.present)).length

/-! ### Aggregators and target evaluator -/

/-- Lookup `db.query(Staff).filter(Staff.id == staff_id).first()`. -/
def findStaff (db : DB) (sid : Nat) : Option Staff :=
  db.staff.find? (fun s => s.id = sid)

/-- Sum of `sale_amount` over the staff member's sales inside the month
(`func.sum(...)` with the `or 0.0` fallback for the empty case), as computed in
both `_calculate_target_incentive` and `_calculate_basic_incentive`. -/
def monthSales (db : DB) (sid y m : Nat) : ℚ :=
  ((db.sales.filter (fun s =>
    s.staff_id = sid ∧ monthStart y m ≤ s.sale_date ∧ s.sale_date ≤ monthEnd y m)).map
      (fun s => s.sale_amount)).sum

/-- The monthly-target query in `_calculate_target_incentive` (lines 123–130):
first target of the staff member of kind `monthly` whose period contains the
whole month (`period_start <= date(y, m, 1)` and
`period_end >= date(y, m, monthrange(y, m)[1])`). -/
def findMonthlyTarget (db : DB) (sid y m : Nat) : Option Target :=
  db.targets.find? (fun t =>
    t.staff_id = sid ∧ t.target_type = TargetType.monthly ∧
    t.period_start ≤ rataDie y m 1 ∧ rataDie y m (daysInMonth y m) ≤ t.period_end)

/-- The Achievement row inserted by `_calculate_target_incentive`. -/
def mkAchievement (sid : Nat) (t : Target) (actual ach inc : ℚ) (y m : Nat) :
    Achievement :=
  { staff_id := sid
    target_id := t.id
    achieved_amount := actual
    achievement_percentage := ach
    incentive_earned := inc
    period_year := y
    period_month := m }

/-- Achievement percentage of `_calculate_target_incentive` line 151:
`(actual_sales / total_target_amount) * 100 if total_target_amount > 0 else 0`. -/
def achievementPercentage (t : Target) (actual_sales : ℚ) : ℚ :=
  if t.total_target_amount > 0 then actual_sales / t.total_target_amount * 100 else 0

/-- Incentive of `_calculate_target_incentive` lines 154–158: the full
target-linked amount at or above 100% achievement, linear partial credit
below. -/
def incentiveAmount (t : Target) (actual_sales : ℚ) : ℚ :=
  if achievementPercentage t actual_sales ≥ 100 then
    t.total_target_amount * (t.incentive_percentage / 100)
  else
    actual_sales * (t.incentive_percentage / 100)

/-- `SalaryCalculator._calculate_target_incentive`: returns the incentive and
the store after the `db.commit()` of the inserted Achievement row (no row and
an unchanged store when no target is found). -/
def calcTargetIncentive (db : DB) (sid y m : Nat) : ℚ × DB :=
  match findMonthlyTarget db sid y m with
  | none => (0, db)
  | some t =>
    let actual_sales := monthSales db sid y m
    let incentive := incentiveAmount t actual_sales
    (incentive,
      { db with achievements := db.achievements ++
          [mkAchievement sid t actual_sales (achievementPercentage t actual_sales)
            incentive y m] })

/-- `SalaryCalculator._calculate_basic_incentive`: month sales times the staff
member's flat incentive percentage; 0 when the staff member is missing or the
percentage is 0. -/
def calcBasicIncentive (db : DB) (sid y m : Nat) : ℚ :=
  match findStaff db sid with
  | none => 0
  | some staff =>
    if staff.incentive_percentage = 0 then 0
    else monthSales db sid y m * (staff.incentive_percentage / 100)

/-! ### Advance ledger -/

/-- Python truthiness of the nullable `monthly_deduction_amount` column, as
tested by `if advance.deduction_plan == "partial" and
advance.monthly_deduction_amount:` — `None` and `0.0` are falsy. -/
def isTruthy : Option ℚ → Bool
  | none => false
  | some x => x != 0

/-- Body of the per-advance loop in
`SalaryCalculator._calculate_advance_deduction` (lines 214–232): the updated
advance row and the amount added to `total_deduction` for this advance. An
advance matching neither branch is left untouched and contributes 0. -/
def processAdvance (a : Advance) : Advance × ℚ :=
  if a.deduction_plan = DeductionPlan.partial_plan ∧ isTruthy a.monthly_deduction_amount then
    let deduction_amount := min (a.monthly_deduction_amount.getD 0) a.remaining_amount
    ({ a with
        total_deducted := a.total_deducted + deduction_amount
        remaining_amount := a.remaining_amount - deduction_amount
        status :=
          if a.remaining_amount - deduction_amount ≤ 0 then AdvanceStatus.cleared
          else a.status },
     deduction_amount)
  else if a.deduction_plan = DeductionPlan.full then
    ({ a with
        total_deducted := a.total_deducted + a.remaining_amount
        remaining_amount := 0
        status := AdvanceStatus.cleared },
     a.remaining_amount)
  else (a, 0)

/-- Whether the active-advances query of `_calculate_advance_deduction`
selects this row: `staff_id == sid` and `status == ACTIVE`. -/
def ledgerSelects (sid : Nat) (a : Advance) : Prop :=
  a.staff_id = sid ∧ a.status = AdvanceStatus.active

instance (sid : Nat) (a : Advance) : Decidable (ledgerSelects sid a) := by
  unfold ledgerSelects; infer_instance

/-- `SalaryCalculator._calculate_advance_deduction`: processes every active
advance of the staff member, accumulates the month's total deduction, and
returns the store after the final `db.commit()` (all mutated advance rows
persisted). The `year`/`month` arguments of the source are unused by its
body and are omitted here. -/
def calcAdvanceDeduction (db : DB) (sid : Nat) : ℚ × DB :=
  let total := ((db.advances.filter (fun a => ledgerSelects sid a)).map
    (fun a => (processAdvance a).2)).sum
  let advances' := db.advances.map
    (fun a => if ledgerSelects sid a then (processAdvance a).1 else a)
  (total, { db with advances := advances' })

/-! ### Payroll engine -/

/-- The dictionary returned by `SalaryCalculator.calculate_salary`
(lines 61–73). -/
structure SalaryData where
  basic_salary : ℚ
  working_days : Nat
  present_days : Nat
  sunday_count : Nat
  salary_for_days : ℚ
  sunday_bonus : ℚ
  target_incentive : ℚ
  basic_incentive : ℚ
  gross_salary : ℚ
  advance_deduction : ℚ
  net_salary : ℚ
deriving DecidableEq, Repr

/-- `SalaryCalculator.calculate_salary`: raises (`.error`) when the staff
member does not exist; otherwise computes the salary figures for the month,
threading the store through the Achievement insert and the advance-ledger
mutation, in the source's order. -/
def calculateSalary (db : DB) (sid y m : Nat) :
    Except String (SalaryData × DB) :=
  match findStaff db sid with
  | none => Except.error ("Staff with ID " ++ toString sid ++ " not found")
  | some staff =>
    let working_days := getWorkingDays y m
    let present_days := getPresentDays db sid y m
    let sunday_count := getSundayCount y m
    let daily_rate := staff.basic_salary / 30
    let salary_for_days := daily_rate * working_days
    let sunday_bonus := daily_rate * sunday_count
    let ti := calcTargetIncentive db sid y m
    let target_incentive := ti.1
    let db1 := ti.2
    let basic_incentive := calcBasicIncentive db1 sid y m
    let ad := calcAdvanceDeduction db1 sid
    let advance_deduction := ad.1
    let db2 := ad.2
    let gross_salary := salary_for_days + sunday_bonus + target_incentive + basic_incentive
    let net_salary := gross_salary - advance_deduction
    Except.ok
      ({ basic_salary := staff.basic_salary
         working_days := working_days
         present_days := present_days
         sunday_count := sunday_count
         salary_for_days := salary_for_days
         sunday_bonus := sunday_bonus
         target_incentive := target_incentive
         basic_incentive := basic_incentive
         gross_salary := gross_salary
         advance_deduction := advance_deduction
         net_salary := net_salary }, db2)

/-- The `Salary` row built by `SalaryCalculator.generate_salary_record`
(lines 243–258); the table has no `sunday_bonus` column, so that figure is
dropped. -/
def mkSalaryRow (sid y m : Nat) (d : SalaryData) : SalaryRow :=
  { staff_id := sid
    year := y
    month := m
    basic_salary := d.basic_salary
    working_days := d.working_days
    present_days := d.present_days
    sunday_count := d.sunday_count
    salary_for_days := d.salary_for_days
    target_incentive := d.target_incentive
    basic_incentive := d.basic_incentive
    gross_salary := d.gross_salary
    advance_deduction := d.advance_deduction
    net_salary := d.net_salary
    payment_status := PaymentStatus.pending }

/-- `SalaryCalculator.generate_salary_record`: runs the calculation (with its
side effects), then inserts and commits one `Salary` row with status
`pending`. The source performs no check for an existing row. -/
def generateSalaryRecord (db : DB) (sid y m : Nat) :
    Except String (SalaryRow × DB) :=
  match calculateSalary db sid y m with
  | Except.error e => Except.error e
  | Except.ok (d, db') =>
    let row := mkSalaryRow sid y m d
    Except.ok (row, { db' with salaries := db'.salaries ++ [row] })

/-- The per-staff loop of `SalaryCalculator.calculate_all_salaries`
(lines 271–277): successes are appended and thread the store; an exception for
one staff member is caught, logged and skipped (`continue`), leaving the store
as it was for the remaining staff. -/
def runBatch (y m : Nat) : DB → List Staff → List SalaryRow × DB
  | db, [] => ([], db)
  | db, s :: rest =>
    match generateSalaryRecord db s.id y m with
    | Except.ok (row, db') =>
      let r := runBatch y m db' rest
      (row :: r.1, r.2)
    | Except.error _ => runBatch y m db rest

/-- `SalaryCalculator.calculate_all_salaries`: iterates the active staff and
collects the successfully generated salary records. -/
def calculateAllSalaries (db : DB) (y m : Nat) : List SalaryRow × DB :=
  runBatch y m db (db.staff.filter (fun s => s.is_active))

/-- `SalaryService.create_salary_record` (`salary_service.py` lines 113–157):
rejects when a `Salary` row for the same `(staff_id, month_year)` already
exists, otherwise inserts and commits the given row. -/
def createSalaryRecord (db : DB) (row : SalaryRow) : Except String DB :=
  if db.salaries.any (fun s =>
      s.staff_id = row.staff_id ∧ s.year = row.year ∧ s.month = row.month) then
    Except.error "Salary record already exists for this month"
  else
    Except.ok { db with salaries := db.salaries ++ [row] }

/-- State reached when the final salary-record commit of
`generate_salary_record` fails: the source has already committed the
Achievement insert (`salary_calculator.py` line 172) and the advance-ledger
mutations (line 234) in their own transactions, so the rollback of the failed
insert (the `db.rollback()` pattern of the service layer) restores only the
uncommitted `Salary` row. The resulting store therefore keeps every side
effect of `calculate_salary`; when the run failed before any commit (staff
not found) the store is unchanged. -/
def generateSalaryRecordFailingPersist (db : DB) (sid y m : Nat) : DB :=
  match calculateSalary db sid y m with
  | Except.error _ => db
  | Except.ok (_, db') => db'

/-- Projection of a successful run's salary data (fallback for the error
case, never reached in the uses below). -/
def runData (e : Except String (SalaryData × DB)) : SalaryData :=
  match e with
  | Except.ok (d, _) => d
  | Except.error _ =>
    { basic_salary := 0, working_days := 0, present_days := 0, sunday_count := 0
      salary_for_days := 0, sunday_bonus := 0, target_incentive := 0
      basic_incentive := 0, gross_salary := 0, advance_deduction := 0
      net_salary := 0 }

/-- Projection of a successful `generateSalaryRecord`'s store (fallback: the
empty store). -/
def runDB (e : Except String (SalaryRow × DB)) : DB :=
  match e with
  | Except.ok (_, db) => db
  | Except.error _ => { staff := [], attendance := [], sales := [], targets := []
                        achievements := [], advances := [], salaries := [] }

/-! ### Concrete stores used by witnesses and counterexamples -/

/-- One active staff member, everything else empty. -/
def dbOneStaff : DB :=
  { staff := [⟨1, 3000, 0, true⟩], attendance := [], sales := [],
    targets := [], achievements := [], advances := [], salaries := [] }

/-- One staff member owing a full-plan advance of 100. -/
def dbFullAdvance : DB :=
  { staff := [⟨1, 3000, 0, true⟩], attendance := [], sales := [],
    targets := [], achievements := [],
    advances := [⟨1, 1, 100, 0, 100, DeductionPlan.full, none, AdvanceStatus.active⟩],
    salaries := [] }

/-- One staff member with one full-plan and one partial-plan advance. -/
def dbTwoAdvances : DB :=
  { staff := [⟨1, 3000, 0, true⟩], attendance := [], sales := [],
    targets := [], achievements := [],
    advances :=
      [⟨1, 1, 100, 0, 100, DeductionPlan.full, none, AdvanceStatus.active⟩,
       ⟨2, 1, 5000, 0, 5000, DeductionPlan.partial_plan, some 1000, AdvanceStatus.active⟩],
    salaries := [] }

/-- A monthly target of 10000 at 5% incentive covering January 2024. -/
def tEx : Target :=
  ⟨7, 1, TargetType.monthly, 10000, rataDie 2024 1 1, rataDie 2024 1 31, 5⟩

/-- One staff member with the monthly target `tEx` and sales of 8000 inside
January 2024 (the partial-credit boundary scenario of the spec). -/
def dbWithTarget : DB :=
  { staff := [⟨1, 3000, 0, true⟩], attendance := [],
    sales := [⟨1, 8000, rataDie 2024 1 15⟩],
    targets := [tEx],
    achievements := [], advances := [], salaries := [] }

/-- A store with no staff at all. -/
def dbEmpty : DB :=
  { staff := [], attendance := [], sales := [], targets := [],
    achievements := [], advances := [], salaries := [] }

/-- Projection of a successful `calculateSalary`'s store (fallback: the empty
store). -/
def runDataDB (e : Except String (SalaryData × DB)) : DB :=
  match e with
  | Except.ok (_, db) => db
  | Except.error _ => dbEmpty

/-- A 5000 advance on the partial plan with a 1000 monthly installment. -/
def advPartialEx : Advance :=
  ⟨2, 1, 5000, 0, 5000, DeductionPlan.partial_plan, some 1000, AdvanceStatus.active⟩

/-- A 100 advance on the full plan. -/
def advFullEx : Advance :=
  ⟨1, 1, 100, 0, 100, DeductionPlan.full, none, AdvanceStatus.active⟩

/-- A partial-plan advance whose monthly installment is null. -/
def advNullInstallment : Advance :=
  ⟨3, 1, 5000, 0, 5000, DeductionPlan.partial_plan, none, AdvanceStatus.active⟩

/-- One Advance Ledger run over the store for a staff member, keeping only the
resulting store. -/
def runLedger (sid : Nat) (db : DB) : DB :=
  (calcAdvanceDeduction db sid).2

/-- A store holding only the null-installment advance. -/
def dbNullInstallment : DB :=
  { staff := [⟨1, 3000, 0, true⟩], attendance := [], sales := [],
    targets := [], achievements := [], advances := [advNullInstallment],
    salaries := [] }

/-- A concrete salary row for staff 1, 2024-01. -/
def rowEx : SalaryRow :=
  { staff_id := 1, year := 2024, month := 1, basic_salary := 3000,
    working_days := 27, present_days := 0, sunday_count := 4,
    salary_for_days := 2700, target_incentive := 0, basic_incentive := 0,
    gross_salary := 3100, advance_deduction := 0, net_salary := 3100,
    payment_status := PaymentStatus.pending }

/-- A store already holding `rowEx`. -/
def dbWithRow : DB :=
  { staff := [⟨1, 3000, 0, true⟩], attendance := [], sales := [],
    targets := [], achievements := [], advances := [], salaries := [rowEx] }

/-! ### Advance-ledger lemmas -/

lemma processAdvance_advance_amount (a : Advance) :
    (processAdvance a).1.advance_amount = a.advance_amount := by
  unfold processAdvance
  split_ifs <;> rfl

lemma processAdvance_conservation (a : Advance)
    (h : a.total_deducted + a.remaining_amount = a.advance_amount) :
    (processAdvance a).1.total_deducted + (processAdvance a).1.remaining_amount
      = a.advance_amount := by
  unfold processAdvance
  split_ifs <;> dsimp only <;> rw [← h] <;> ring

lemma processAdvance_remaining_nonneg (a : Advance)
    (h : 0 ≤ a.remaining_amount) :
    0 ≤ (processAdvance a).1.remaining_amount := by
  unfold processAdvance
  split_ifs <;> dsimp only
  · exact sub_nonneg.mpr (min_le_right _ _)
  · exact le_refl 0
  · exact h

/-- C2 (claim theorem): conservation for the Advance Ledger — if every advance
in the store satisfies `total_deducted + remaining_amount = advance_amount`
with a non-negative remainder, then after a ledger run every advance still
does, whatever its deduction plan. -/
theorem advance_conservation (db : DB) (sid : Nat)
    (hinv : ∀ a ∈ db.advances,
      a.total_deducted + a.remaining_amount = a.advance_amount ∧
      0 ≤ a.remaining_amount) :
    ∀ a' ∈ (calcAdvanceDeduction db sid).2.advances,
      a'.total_deducted + a'.remaining_amount = a'.advance_amount ∧
      0 ≤ a'.remaining_amount := by
  intro a' ha'
  simp only [calcAdvanceDeduction, List.mem_map] at ha'
  obtain ⟨a, ha, rfl⟩ := ha'
  obtain ⟨hc, hn⟩ := hinv a ha
  by_cases hs : ledgerSelects sid a
  · simp only [hs, if_pos]
    refine ⟨?_, processAdvance_remaining_nonneg a hn⟩
    rw [processAdvance_advance_amount]
    exact processAdvance_conservation a hc
  · simp only [hs, if_neg, not_false_iff]
    exact ⟨hc, hn⟩

/-- C2 witness: the invariant holds of the first advance the ledger returns
for the two-advance store. -/
theorem advance_conservation_witness :
    ((calcAdvanceDeduction dbTwoAdvances 1).2.advances.get
        ⟨0, by simp [calcAdvanceDeduction, dbTwoAdvances]⟩).total_deducted +
      ((calcAdvanceDeduction dbTwoAdvances 1).2.advances.get
        ⟨0, by simp [calcAdvanceDeduction, dbTwoAdvances]⟩).remaining_amount =
      ((calcAdvanceDeduction dbTwoAdvances 1).2.advances.get
        ⟨0, by simp [calcAdvanceDeduction, dbTwoAdvances]⟩).advance_amount ∧
    0 ≤ ((calcAdvanceDeduction dbTwoAdvances 1).2.advances.get
        ⟨0, by simp [calcAdvanceDeduction, dbTwoAdvances]⟩).remaining_amount :=
  advance_conservation dbTwoAdvances 1
    (by
      intro a ha
      simp only [dbTwoAdvances, List.mem_cons, List.not_mem_nil, or_false] at ha
      rcases ha with rfl | rfl <;> exact ⟨by norm_num, by norm_num⟩)
    _ (List.get_mem _ _ _)

/-- C5 (claim theorem): a run of the Advance Ledger over an active partial-plan
advance with a non-null, non-zero installment `D` deducts exactly
`min D remaining`, decrements the remainder by that amount (never below 0),
and sets the status to `cleared` exactly when the new remainder is 0. -/
theorem partial_plan_step (a : Advance) (D : ℚ)
    (hplan : a.deduction_plan = DeductionPlan.partial_plan)
    (hD : a.monthly_deduction_amount = some D) (hD0 : D ≠ 0)
    (hrem : 0 ≤ a.remaining_amount) (hact : a.status = AdvanceStatus.active) :
    (processAdvance a).2 = min D a.remaining_amount ∧
    (processAdvance a).1.remaining_amount
      = a.remaining_amount - min D a.remaining_amount ∧
    0 ≤ (processAdvance a).1.remaining_amount ∧
    ((processAdvance a).1.status = AdvanceStatus.cleared ↔
      (processAdvance a).1.remaining_amount = 0) := by
  have htruthy : isTruthy a.monthly_deduction_amount = true := by
    simp [isTruthy, hD, hD0]
  unfold processAdvance
  rw [if_pos ⟨hplan, htruthy⟩]
  dsimp only
  rw [hD]
  dsimp only [Option.getD]
  refine ⟨rfl, rfl, sub_nonneg.mpr (min_le_right _ _), ?_⟩
  by_cases hc : a.remaining_amount - min D a.remaining_amount ≤ 0
  · rw [if_pos hc]
    have hz : a.remaining_amount - min D a.remaining_amount = 0 :=
      le_antisymm hc (sub_nonneg.mpr (min_le_right _ _))
    exact ⟨fun _ => hz, fun _ => rfl⟩
  · rw [if_neg hc]
    constructor
    · intro h
      rw [hact] at h
      cases h
    · intro h
      exact absurd (le_of_eq h) hc

/-- C5 witness. -/
theorem partial_plan_step_witness :
    (processAdvance advPartialEx).2 = min 1000 advPartialEx.remaining_amount ∧
    (processAdvance advPartialEx).1.remaining_amount
      = advPartialEx.remaining_amount - min 1000 advPartialEx.remaining_amount ∧
    0 ≤ (processAdvance advPartialEx).1.remaining_amount ∧
    ((processAdvance advPartialEx).1.status = AdvanceStatus.cleared ↔
      (processAdvance advPartialEx).1.remaining_amount = 0) :=
  partial_plan_step advPartialEx 1000 rfl rfl (by norm_num) (by norm_num [advPartialEx]) rfl

/-- C6 (claim theorem): a run of the Advance Ledger over an active full-plan
advance deducts the entire remainder, zeroes the remainder, moves the full
remainder into `total_deducted`, sets the status to `cleared`, and the
resulting advance is not selected by any later ledger run. -/
theorem full_plan_single_shot (a : Advance)
    (hplan : a.deduction_plan = DeductionPlan.full)
    (hact : a.status = AdvanceStatus.active) :
    (processAdvance a).2 = a.remaining_amount ∧
    (processAdvance a).1.remaining_amount = 0 ∧
    (processAdvance a).1.total_deducted = a.total_deducted + a.remaining_amount ∧
    (processAdvance a).1.status = AdvanceStatus.cleared ∧
    ∀ sid : Nat, ¬ ledgerSelects sid (processAdvance a).1 := by
  have hnp : ¬ (a.deduction_plan = DeductionPlan.partial_plan ∧
      isTruthy a.monthly_deduction_amount = true) := by
    rintro ⟨h1, -⟩
    rw [hplan] at h1
    cases h1
  unfold processAdvance
  rw [if_neg hnp, if_pos hplan]
  refine ⟨rfl, rfl, rfl, rfl, fun sid hsel => ?_⟩
  cases hsel.2

/-- C6 witness. -/
theorem full_plan_single_shot_witness :
    (processAdvance advFullEx).2 = advFullEx.remaining_amount ∧
    (processAdvance advFullEx).1.remaining_amount = 0 ∧
    (processAdvance advFullEx).1.total_deducted
      = advFullEx.total_deducted + advFullEx.remaining_amount ∧
    (processAdvance advFullEx).1.status = AdvanceStatus.cleared ∧
    ¬ ledgerSelects 1 (processAdvance advFullEx).1 :=
  ⟨(full_plan_single_shot advFullEx rfl rfl).1,
   (full_plan_single_shot advFullEx rfl rfl).2.1,
   (full_plan_single_shot advFullEx rfl rfl).2.2.1,
   (full_plan_single_shot advFullEx rfl rfl).2.2.2.1,
   (full_plan_single_shot advFullEx rfl rfl).2.2.2.2 1⟩

/-- C10 (claim theorem): a partial-plan advance whose monthly installment is
null or 0 is skipped by the ledger — it contributes a 0 deduction and is
returned unchanged — and it stays unchanged (so never becomes `cleared`) under
any number of ledger runs for any staff identifier. -/
theorem zero_installment_advance_never_deducted (a : Advance)
    (hplan : a.deduction_plan = DeductionPlan.partial_plan)
    (hD : a.monthly_deduction_amount = none ∨ a.monthly_deduction_amount = some 0) :
    processAdvance a = (a, 0) ∧
    ∀ (db : DB) (sid i n : Nat),
      db.advances[i]? = some a → ((runLedger sid)^[n] db).advances[i]? = some a := by
  have ht : isTruthy a.monthly_deduction_amount = false := by
    rcases hD with h | h <;> simp [isTruthy, h]
  have hskip : processAdvance a = (a, 0) := by
    have hnp : ¬ (a.deduction_plan = DeductionPlan.partial_plan ∧
        isTruthy a.monthly_deduction_amount = true) := by
      rintro ⟨-, h2⟩
      rw [ht] at h2
      cases h2
    have hnf : a.deduction_plan ≠ DeductionPlan.full := by
      rw [hplan]
      intro h
      cases h
    unfold processAdvance
    rw [if_neg hnp, if_neg hnf]
  refine ⟨hskip, ?_⟩
  intro db sid i n
  induction n generalizing db with
  | zero =>
    intro h
    simpa using h
  | succ n ih =>
    intro h
    rw [Function.iterate_succ_apply]
    apply ih
    show (runLedger sid db).advances[i]? = some a
    simp only [runLedger, calcAdvanceDeduction]
    rw [List.getElem?_map, h]
    dsimp only [Option.map]
    by_cases hsel : ledgerSelects sid a
    · rw [if_pos hsel, hskip]
    · rw [if_neg hsel]

/-- C10 witness: three consecutive ledger runs leave the null-installment
advance untouched. -/
theorem zero_installment_advance_never_deducted_witness :
    processAdvance advNullInstallment = (advNullInstallment, 0) ∧
    ((runLedger 1)^[3] dbNullInstallment).advances[0]? = some advNullInstallment :=
  ⟨(zero_installment_advance_never_deducted advNullInstallment rfl (Or.inl rfl)).1,
   (zero_installment_advance_never_deducted advNullInstallment rfl (Or.inl rfl)).2
     dbNullInstallment 1 0 3 rfl⟩

/-! ### Target evaluator theorems -/

/-- C4 (claim theorem): when a monthly target covering the whole month is
found and its total amount is non-negative, the computed incentive is the full
target-linked amount `total_target_amount * incentive_percentage / 100`
whenever the achievement percentage (0 when the target amount is 0, else
`actual_sales / total_target_amount * 100`) is at least 100, and the linear
partial credit `actual_sales * incentive_percentage / 100` otherwise. -/
theorem target_incentive_policy (db : DB) (sid y m : Nat) (t : Target)
    (hfind : findMonthlyTarget db sid y m = some t)
    (htta : 0 ≤ t.total_target_amount) :
    (calcTargetIncentive db sid y m).1 =
      if (if t.total_target_amount = 0 then 0
          else monthSales db sid y m / t.total_target_amount * 100) ≥ 100 then
        t.total_target_amount * (t.incentive_percentage / 100)
      else
        monthSales db sid y m * (t.incentive_percentage / 100) := by
  simp only [calcTargetIncentive, hfind]
  unfold incentiveAmount achievementPercentage
  rcases eq_or_lt_of_le htta with hzero | hpos
  · rw [← hzero]
    norm_num
  · rw [if_pos hpos, if_neg (ne_of_gt hpos)]

/-- C4 witness: the 80%-achievement boundary scenario (target 10000 at 5%,
sales 8000). -/
theorem target_incentive_policy_witness :
    (calcTargetIncentive dbWithTarget 1 2024 1).1 =
      if (if tEx.total_target_amount = 0 then 0
          else monthSales dbWithTarget 1 2024 1 / tEx.total_target_amount * 100) ≥ 100 then
        tEx.total_target_amount * (tEx.incentive_percentage / 100)
      else
        monthSales dbWithTarget 1 2024 1 * (tEx.incentive_percentage / 100) :=
  target_incentive_policy dbWithTarget 1 2024 1 tEx rfl (by norm_num [tEx])

/-- C9 (claim theorem): when no monthly target covering the month exists, the
target evaluator returns a 0 incentive and leaves the store — in particular
the achievements table — untouched; when such a target is found, it appends
exactly one Achievement row recording the evaluation, whatever the achieved
percentage. -/
theorem achievement_audit_trail (db : DB) (sid y m : Nat) :
    (findMonthlyTarget db sid y m = none →
      calcTargetIncentive db sid y m = (0, db)) ∧
    ∀ t, findMonthlyTarget db sid y m = some t →
      (calcTargetIncentive db sid y m).2.achievements =
        db.achievements ++
          [mkAchievement sid t (monthSales db sid y m)
            (achievementPercentage t (monthSales db sid y m))
            (incentiveAmount t (monthSales db sid y m)) y m] := by
  constructor
  · intro h
    simp [calcTargetIncentive, h]
  · intro t h
    simp [calcTargetIncentive, h]

/-- C9 witness: a staff member with no target writes nothing; the target
scenario appends one row. -/
theorem achievement_audit_trail_witness :
    calcTargetIncentive dbOneStaff 1 2024 1 = (0, dbOneStaff) ∧
    (calcTargetIncentive dbWithTarget 1 2024 1).2.achievements =
      dbWithTarget.achievements ++
        [mkAchievement 1 tEx (monthSales dbWithTarget 1 2024 1)
          (achievementPercentage tEx (monthSales dbWithTarget 1 2024 1))
          (incentiveAmount tEx (monthSales dbWithTarget 1 2024 1)) 2024 1] :=
  ⟨(achievement_audit_trail dbOneStaff 1 2024 1).1 rfl,
   (achievement_audit_trail dbWithTarget 1 2024 1).2 tEx rfl⟩

/-! ### Payroll-engine lemmas -/

lemma calcTargetIncentive_staff (db : DB) (sid y m : Nat) :
    (calcTargetIncentive db sid y m).2.staff = db.staff := by
  unfold calcTargetIncentive
  cases findMonthlyTarget db sid y m <;> rfl

lemma calcTargetIncentive_salaries (db : DB) (sid y m : Nat) :
    (calcTargetIncentive db sid y m).2.salaries = db.salaries := by
  unfold calcTargetIncentive
  cases findMonthlyTarget db sid y m <;> rfl

lemma calcAdvanceDeduction_staff (db : DB) (sid : Nat) :
    (calcAdvanceDeduction db sid).2.staff = db.staff := rfl

lemma calcAdvanceDeduction_salaries (db : DB) (sid : Nat) :
    (calcAdvanceDeduction db sid).2.salaries = db.salaries := rfl

lemma calcAdvanceDeduction_achievements (db : DB) (sid : Nat) :
    (calcAdvanceDeduction db sid).2.achievements = db.achievements := rfl

/-- A successful `calculate_salary` run ends in the store produced by the
advance ledger applied after the achievement insert. -/
lemma calculateSalary_db (db : DB) (sid y m : Nat) (d : SalaryData) (db2 : DB)
    (h : calculateSalary db sid y m = Except.ok (d, db2)) :
    db2 = (calcAdvanceDeduction (calcTargetIncentive db sid y m).2 sid).2 := by
  unfold calculateSalary at h
  cases hf : findStaff db sid with
  | none =>
    rw [hf] at h
    cases h
  | some s =>
    rw [hf] at h
    simp only [Except.ok.injEq, Prod.mk.injEq] at h
    exact h.2.symm

lemma calculateSalary_staff (db : DB) (sid y m : Nat) (d : SalaryData) (db2 : DB)
    (h : calculateSalary db sid y m = Except.ok (d, db2)) :
    db2.staff = db.staff := by
  rw [calculateSalary_db db sid y m d db2 h, calcAdvanceDeduction_staff,
    calcTargetIncentive_staff]

lemma calculateSalary_salaries (db : DB) (sid y m : Nat) (d : SalaryData) (db2 : DB)
    (h : calculateSalary db sid y m = Except.ok (d, db2)) :
    db2.salaries = db.salaries := by
  rw [calculateSalary_db db sid y m d db2 h, calcAdvanceDeduction_salaries,
    calcTargetIncentive_salaries]

/-- `calculate_salary` succeeds exactly when the staff lookup does. -/
lemma calculateSalary_isOk (db : DB) (sid y m : Nat) :
    (calculateSalary db sid y m).isOk = (findStaff db sid).isSome := by
  unfold calculateSalary
  cases findStaff db sid <;> rfl

/-- A successful `generate_salary_record` appends exactly its returned row to
the salary table and leaves the staff table unchanged. -/
lemma generateSalaryRecord_ok (db : DB) (sid y m : Nat) (row : SalaryRow) (db' : DB)
    (h : generateSalaryRecord db sid y m = Except.ok (row, db')) :
    db'.salaries = db.salaries ++ [row] ∧ db'.staff = db.staff ∧
    row = mkSalaryRow sid y m (runData (calculateSalary db sid y m)) := by
  unfold generateSalaryRecord at h
  cases hc : calculateSalary db sid y m with
  | error e =>
    rw [hc] at h
    cases h
  | ok p =>
    rw [hc] at h
    simp only [Except.ok.injEq, Prod.mk.injEq] at h
    obtain ⟨hrow, hdb⟩ := h
    subst hdb
    refine ⟨?_, ?_, ?_⟩
    · dsimp only []
      rw [calculateSalary_salaries db sid y m p.1 p.2 (by rw [hc]), hrow]
    · dsimp only []
      exact calculateSalary_staff db sid y m p.1 p.2 (by rw [hc])
    · subst hrow
      rfl

lemma generateSalaryRecord_isOk (db : DB) (sid y m : Nat) :
    (generateSalaryRecord db sid y m).isOk = (findStaff db sid).isSome := by
  unfold generateSalaryRecord
  rw [← calculateSalary_isOk db sid y m]
  cases calculateSalary db sid y m <;> rfl

/-! ### Payroll-formula theorems (C3) -/

/-- C3 counterexample: for a staff member with basic salary 3000 in January
2024 (4 Sundays), the run succeeds but the returned figures violate
`gross_salary = salary_for_days + target_incentive + basic_incentive` — the
gross is 3100 while the right-hand side is 2700, because the Sunday bonus of
400 is a separate additive term, not folded into `salary_for_days`. -/
theorem gross_salary_claim_counterexample :
    (calculateSalary dbOneStaff 1 2024 1).isOk = true ∧
    ¬ ((runData (calculateSalary dbOneStaff 1 2024 1)).gross_salary =
        (runData (calculateSalary dbOneStaff 1 2024 1)).salary_for_days +
        (runData (calculateSalary dbOneStaff 1 2024 1)).target_incentive +
        (runData (calculateSalary dbOneStaff 1 2024 1)).basic_incentive) := by
  have hev : runData (calculateSalary dbOneStaff 1 2024 1) =
      { basic_salary := 3000, working_days := 27, present_days := 0, sunday_count := 4,
        salary_for_days := 2700, sunday_bonus := 400, target_incentive := 0,
        basic_incentive := 0, gross_salary := 3100, advance_deduction := 0,
        net_salary := 3100 } := by
    simp [runData, calculateSalary, dbOneStaff, findStaff, calcTargetIncentive,
      findMonthlyTarget, calcBasicIncentive, calcAdvanceDeduction, monthSales,
      getPresentDays, getWorkingDays, getSundayCount, daysInMonth, isLeap, weekday,
      rataDie, daysBeforeMonth, monthStart, monthEnd]
    norm_num [List.range_succ]
  refine ⟨rfl, ?_⟩
  rw [hev]
  norm_num

/-- C3 amended (claim theorem): every successful single-staff payroll
computation satisfies
`gross_salary = salary_for_days + sunday_bonus + target_incentive +
basic_incentive` — the Sunday bonus `daily_rate * sunday_count` is a separate
additive term, not folded into `salary_for_days` — and
`net_salary = gross_salary - advance_deduction`. -/
theorem salary_formula (db : DB) (sid y m : Nat) (d : SalaryData) (db' : DB)
    (h : calculateSalary db sid y m = Except.ok (d, db')) :
    d.gross_salary =
      d.salary_for_days + d.sunday_bonus + d.target_incentive + d.basic_incentive ∧
    d.net_salary = d.gross_salary - d.advance_deduction ∧
    d.sunday_bonus = d.basic_salary / 30 * d.sunday_count ∧
    d.salary_for_days = d.basic_salary / 30 * d.working_days := by
  unfold calculateSalary at h
  cases hf : findStaff db sid with
  | none =>
    rw [hf] at h
    cases h
  | some s =>
    rw [hf] at h
    simp only [Except.ok.injEq, Prod.mk.injEq] at h
    obtain ⟨hd, -⟩ := h
    subst hd
    exact ⟨rfl, rfl, rfl, rfl⟩

/-- C3 amended witness. -/
theorem salary_formula_witness :
    (runData (calculateSalary dbOneStaff 1 2024 1)).gross_salary =
      (runData (calculateSalary dbOneStaff 1 2024 1)).salary_for_days +
      (runData (calculateSalary dbOneStaff 1 2024 1)).sunday_bonus +
      (runData (calculateSalary dbOneStaff 1 2024 1)).target_incentive +
      (runData (calculateSalary dbOneStaff 1 2024 1)).basic_incentive ∧
    (runData (calculateSalary dbOneStaff 1 2024 1)).net_salary =
      (runData (calculateSalary dbOneStaff 1 2024 1)).gross_salary -
      (runData (calculateSalary dbOneStaff 1 2024 1)).advance_deduction ∧
    (runData (calculateSalary dbOneStaff 1 2024 1)).sunday_bonus =
      (runData (calculateSalary dbOneStaff 1 2024 1)).basic_salary / 30 *
      (runData (calculateSalary dbOneStaff 1 2024 1)).sunday_count ∧
    (runData (calculateSalary dbOneStaff 1 2024 1)).salary_for_days =
      (runData (calculateSalary dbOneStaff 1 2024 1)).basic_salary / 30 *
      (runData (calculateSalary dbOneStaff 1 2024 1)).working_days :=
  salary_formula dbOneStaff 1 2024 1 (runData (calculateSalary dbOneStaff 1 2024 1))
    (runDataDB (calculateSalary dbOneStaff 1 2024 1)) rfl

/-! ### Idempotence-guard theorems (C1) -/

/-- C1 counterexample: running `generate_salary_record` twice for the same
staff member and month succeeds both times — the second call does not fail
with an already-computed error — and afterwards two SalaryRecords exist for
the pair (staff 1, 2024-01), not one. -/
theorem idempotence_guard_counterexample :
    (generateSalaryRecord dbOneStaff 1 2024 1).isOk = true ∧
    (generateSalaryRecord (runDB (generateSalaryRecord dbOneStaff 1 2024 1)) 1 2024 1).isOk
      = true ∧
    ((runDB (generateSalaryRecord
        (runDB (generateSalaryRecord dbOneStaff 1 2024 1)) 1 2024 1)).salaries.map
      (fun r => (r.staff_id, r.year, r.month))) = [(1, 2024, 1), (1, 2024, 1)] :=
  ⟨rfl, rfl, rfl⟩

/-- C1 amended (claim theorem): `SalaryCalculator.generate_salary_record`
applies no idempotence guard — whenever the staff member exists, a second call
for the same (staff, month) succeeds again and appends a second SalaryRecord
for that pair. The duplicate check exists only in
`SalaryService.create_salary_record`, which rejects a row exactly when one for
the same (staff, month) is already stored, and inserts exactly one row
otherwise. -/
theorem missing_idempotence_guard (db : DB) (sid y m : Nat)
    (h : (findStaff db sid).isSome = true) :
    (generateSalaryRecord db sid y m).isOk = true ∧
    (generateSalaryRecord (runDB (generateSalaryRecord db sid y m)) sid y m).isOk = true ∧
    (runDB (generateSalaryRecord (runDB (generateSalaryRecord db sid y m)) sid y m)).salaries
      = db.salaries ++
        [mkSalaryRow sid y m (runData (calculateSalary db sid y m)),
         mkSalaryRow sid y m
           (runData (calculateSalary (runDB (generateSalaryRecord db sid y m)) sid y m))] ∧
    (∀ (db' : DB) (row : SalaryRow),
      (∃ r0 ∈ db'.salaries,
        r0.staff_id = row.staff_id ∧ r0.year = row.year ∧ r0.month = row.month) →
      createSalaryRecord db' row
        = Except.error "Salary record already exists for this month") ∧
    (∀ (db' : DB) (row : SalaryRow),
      (∀ r0 ∈ db'.salaries,
        ¬ (r0.staff_id = row.staff_id ∧ r0.year = row.year ∧ r0.month = row.month)) →
      createSalaryRecord db' row
        = Except.ok { db' with salaries := db'.salaries ++ [row] }) := by
  have h1ok : (generateSalaryRecord db sid y m).isOk = true := by
    rw [generateSalaryRecord_isOk, h]
  obtain ⟨row1, db1, hrun1⟩ :
      ∃ row1 db1, generateSalaryRecord db sid y m = Except.ok (row1, db1) := by
    cases hg : generateSalaryRecord db sid y m with
    | error e =>
      rw [hg] at h1ok
      cases h1ok
    | ok p =>
      obtain ⟨r, d⟩ := p
      exact ⟨r, d, rfl⟩
  obtain ⟨hsal1, hstaff1, hrow1⟩ := generateSalaryRecord_ok db sid y m row1 db1 hrun1
  have hdb1 : runDB (generateSalaryRecord db sid y m) = db1 := by
    rw [hrun1]
    rfl
  have h2ok : (generateSalaryRecord db1 sid y m).isOk = true := by
    rw [generateSalaryRecord_isOk]
    unfold findStaff at h ⊢
    rw [hstaff1]
    exact h
  obtain ⟨row2, db2, hrun2⟩ :
      ∃ row2 db2, generateSalaryRecord db1 sid y m = Except.ok (row2, db2) := by
    cases hg : generateSalaryRecord db1 sid y m with
    | error e =>
      rw [hg] at h2ok
      cases h2ok
    | ok p =>
      obtain ⟨r, d⟩ := p
      exact ⟨r, d, rfl⟩
  obtain ⟨hsal2, hstaff2, hrow2⟩ := generateSalaryRecord_ok db1 sid y m row2 db2 hrun2
  have hdb2 : runDB (generateSalaryRecord db1 sid y m) = db2 := by
    rw [hrun2]
    rfl
  refine ⟨h1ok, ?_, ?_, ?_, ?_⟩
  · rw [hdb1, hrun2]
    rfl
  · rw [hdb1, hdb2, hsal2, hsal1, hrow1, hrow2]
    simp [List.append_assoc]
  · intro db' row hex
    have hany : (db'.salaries.any fun s =>
        s.staff_id = row.staff_id ∧ s.year = row.year ∧ s.month = row.month) = true := by
      simp only [List.any_eq_true, decide_eq_true_eq]
      simpa using hex
    unfold createSalaryRecord
    rw [if_pos hany]
  · intro db' row hnone
    have hany : (db'.salaries.any fun s =>
        s.staff_id = row.staff_id ∧ s.year = row.year ∧ s.month = row.month) = false := by
      simp only [List.any_eq_false, decide_eq_true_eq]
      simpa using hnone
    unfold createSalaryRecord
    rw [if_neg (by rw [hany]; exact Bool.false_ne_true)]

/-- C1 amended witness. -/
theorem missing_idempotence_guard_witness :
    (generateSalaryRecord dbOneStaff 1 2024 1).isOk = true ∧
    (generateSalaryRecord (runDB (generateSalaryRecord dbOneStaff 1 2024 1)) 1 2024 1).isOk
      = true ∧
    (runDB (generateSalaryRecord
        (runDB (generateSalaryRecord dbOneStaff 1 2024 1)) 1 2024 1)).salaries
      = dbOneStaff.salaries ++
        [mkSalaryRow 1 2024 1 (runData (calculateSalary dbOneStaff 1 2024 1)),
         mkSalaryRow 1 2024 1
           (runData (calculateSalary
             (runDB (generateSalaryRecord dbOneStaff 1 2024 1)) 1 2024 1))] ∧
    createSalaryRecord dbWithRow rowEx
      = Except.error "Salary record already exists for this month" ∧
    createSalaryRecord dbOneStaff rowEx
      = Except.ok { dbOneStaff with salaries := dbOneStaff.salaries ++ [rowEx] } :=
  ⟨(missing_idempotence_guard dbOneStaff 1 2024 1 rfl).1,
   (missing_idempotence_guard dbOneStaff 1 2024 1 rfl).2.1,
   (missing_idempotence_guard dbOneStaff 1 2024 1 rfl).2.2.1,
   (missing_idempotence_guard dbOneStaff 1 2024 1 rfl).2.2.2.1 dbWithRow rowEx
     ⟨rowEx, by simp [dbWithRow], rfl, rfl, rfl⟩,
   (missing_idempotence_guard dbOneStaff 1 2024 1 rfl).2.2.2.2 dbOneStaff rowEx
     (by
       intro r0 hr0
       simp [dbOneStaff] at hr0)⟩

/-! ### Transaction-boundary theorems (C7) -/

/-- C7 counterexample: with one active full-plan advance of 100, a run whose
final salary-record commit fails leaves the advance mutated
(status `cleared`) while no SalaryRecord was written — partial state
survives, because the achievement and advance commits happened in earlier,
separate transactions. -/
theorem atomicity_counterexample :
    ((generateSalaryRecordFailingPersist dbFullAdvance 1 2024 1).advances.map
      (fun a => (a.id, a.status))) = [(1, AdvanceStatus.cleared)] ∧
    (generateSalaryRecordFailingPersist dbFullAdvance 1 2024 1).salaries = [] :=
  ⟨rfl, rfl⟩

/-- C7 amended (claim theorem): the single-staff run commits in three separate
transactions (achievement, advance ledger, salary record), so a failure of the
final salary-record commit rolls back only that insert: the store keeps the
committed achievement insert and advance-ledger mutations while the salary
table is unchanged — mutated advances survive without a corresponding
SalaryRecord. Only a failure before the first commit (staff not found) leaves
the store untouched. -/
theorem per_step_commit_semantics (db : DB) (sid y m : Nat) :
    ((findStaff db sid).isSome = false →
      generateSalaryRecordFailingPersist db sid y m = db) ∧
    ((findStaff db sid).isSome = true →
      (generateSalaryRecordFailingPersist db sid y m).salaries = db.salaries ∧
      (generateSalaryRecordFailingPersist db sid y m).advances =
        (calcAdvanceDeduction (calcTargetIncentive db sid y m).2 sid).2.advances ∧
      (generateSalaryRecordFailingPersist db sid y m).achievements =
        (calcTargetIncentive db sid y m).2.achievements) := by
  cases hf : findStaff db sid with
  | none =>
    constructor
    · intro _
      unfold generateSalaryRecordFailingPersist calculateSalary
      rw [hf]
    · intro h
      cases h
  | some s =>
    constructor
    · intro h
      cases h
    · intro _
      have hcalc : calculateSalary db sid y m =
          Except.ok (runData (calculateSalary db sid y m),
            (calcAdvanceDeduction (calcTargetIncentive db sid y m).2 sid).2) := by
        unfold calculateSalary runData
        rw [hf]
      have hrun : generateSalaryRecordFailingPersist db sid y m =
          (calcAdvanceDeduction (calcTargetIncentive db sid y m).2 sid).2 := by
        unfold generateSalaryRecordFailingPersist
        rw [hcalc]
      rw [hrun]
      refine ⟨?_, rfl, ?_⟩
      · rw [calcAdvanceDeduction_salaries, calcTargetIncentive_salaries]
      · rw [calcAdvanceDeduction_achievements]

/-- C7 amended witness. -/
theorem per_step_commit_semantics_witness :
    (generateSalaryRecordFailingPersist dbFullAdvance 1 2024 1).salaries =
      dbFullAdvance.salaries ∧
    (generateSalaryRecordFailingPersist dbFullAdvance 1 2024 1).advances =
      (calcAdvanceDeduction (calcTargetIncentive dbFullAdvance 1 2024 1).2 1).2.advances ∧
    (generateSalaryRecordFailingPersist dbFullAdvance 1 2024 1).achievements =
      (calcTargetIncentive dbFullAdvance 1 2024 1).2.achievements :=
  (per_step_commit_semantics dbFullAdvance 1 2024 1).2 rfl

/-! ### Batch theorems (C8) -/

lemma runBatch_salaries (y m : Nat) :
    ∀ (l : List Staff) (db : DB),
      (runBatch y m db l).2.salaries = db.salaries ++ (runBatch y m db l).1
  | [], db => by simp [runBatch]
  | s :: rest, db => by
    unfold runBatch
    cases hg : generateSalaryRecord db s.id y m with
    | error e =>
      exact runBatch_salaries y m rest db
    | ok p =>
      obtain ⟨row, db'⟩ := p
      dsimp only
      rw [runBatch_salaries y m rest db',
        (generateSalaryRecord_ok db s.id y m row db' hg).1]
      simp

lemma runBatch_cons (y m : Nat) (db : DB) (s : Staff) (rest : List Staff) :
    runBatch y m db (s :: rest) =
      match generateSalaryRecord db s.id y m with
      | Except.ok (row, db') =>
        (row :: (runBatch y m db' rest).1, (runBatch y m db' rest).2)
      | Except.error _ => runBatch y m db rest := rfl

lemma runBatch_skip (y m : Nat) (s : Staff) (ys : List Staff) :
    ∀ (xs : List Staff) (db : DB),
      (generateSalaryRecord (runBatch y m db xs).2 s.id y m).isOk = false →
      runBatch y m db (xs ++ s :: ys) = runBatch y m db (xs ++ ys)
  | [], db, hfail => by
    simp only [List.nil_append]
    rw [runBatch_cons]
    cases hg : generateSalaryRecord db s.id y m with
    | error e => rfl
    | ok p =>
      have : (runBatch y m db []).2 = db := rfl
      rw [this, hg] at hfail
      cases hfail
  | x :: xs, db, hfail => by
    simp only [List.cons_append]
    rw [runBatch_cons, runBatch_cons y m db x (xs ++ ys)]
    cases hg : generateSalaryRecord db x.id y m with
    | error e =>
      dsimp only
      apply runBatch_skip y m s ys xs db
      have h2 : (runBatch y m db (x :: xs)).2 = (runBatch y m db xs).2 := by
        rw [runBatch_cons, hg]
      rw [← h2]
      exact hfail
    | ok p =>
      obtain ⟨row, db'⟩ := p
      dsimp only
      have h2 : (runBatch y m db (x :: xs)).2 = (runBatch y m db' xs).2 := by
        rw [runBatch_cons, hg]
      rw [runBatch_skip y m s ys xs db' (by rw [← h2]; exact hfail)]

/-- C8 (claim theorem): the batch operation iterates exactly over the active
staff; a staff member whose single-staff run fails is skipped without
affecting the rest of the batch (dropping the failing member from the
iteration changes nothing); and the store after the batch contains exactly the
previously stored salary rows plus the batch result, i.e. the rows of the
successful runs. -/
theorem batch_skips_failures (db : DB) (y m : Nat) (xs ys : List Staff) (s : Staff)
    (hfail : (generateSalaryRecord (runBatch y m db xs).2 s.id y m).isOk = false) :
    calculateAllSalaries db y m
      = runBatch y m db (db.staff.filter (fun st => st.is_active)) ∧
    runBatch y m db (xs ++ s :: ys) = runBatch y m db (xs ++ ys) ∧
    (runBatch y m db (xs ++ s :: ys)).2.salaries
      = db.salaries ++ (runBatch y m db (xs ++ s :: ys)).1 :=
  ⟨rfl, runBatch_skip y m s ys xs db hfail,
    runBatch_salaries y m (xs ++ s :: ys) db⟩

/-- C8 witness: with an empty staff table the single run for staff 1 fails
(staff not found), and the batch over `[staff 1]` equals the batch over `[]`. -/
theorem batch_skips_failures_witness :
    (generateSalaryRecord (runBatch 2024 1 dbEmpty []).2 1 2024 1).isOk = false ∧
    (calculateAllSalaries dbEmpty 2024 1
        = runBatch 2024 1 dbEmpty (dbEmpty.staff.filter (fun st => st.is_active)) ∧
      runBatch 2024 1 dbEmpty ([] ++ ⟨1, 3000, 0, true⟩ :: [])
        = runBatch 2024 1 dbEmpty ([] ++ []) ∧
      (runBatch 2024 1 dbEmpty ([] ++ ⟨1, 3000, 0, true⟩ :: [])).2.salaries
        = dbEmpty.salaries
          ++ (runBatch 2024 1 dbEmpty ([] ++ ⟨1, 3000, 0, true⟩ :: [])).1) :=
  ⟨rfl, batch_skips_failures dbEmpty 2024 1 [] [] ⟨1, 3000, 0, true⟩ rfl⟩

end Monoerp
